import Mathlib

/-!
Shallow embedding of `pywin32supervisor/supervisor.py`.

The `Program` class and the supervisor's monitor loop and XML-RPC handlers
are translated into pure Lean functions.  Side effects (spawning a process,
opening/closing log files, terminating/killing, sleeping, writing to the
service log) are recorded in an explicit event trace.  OS nondeterminism
(whether a file open or a spawn succeeds, the pid handed out, the current
wall-clock time) is passed in through a `SpawnEnv` record.  The daemon
thread started by `start_program` (`_check_start_success`) is modelled as a
separate atomic step, with the model field `check_pending` standing for the
live thread; a spontaneous process exit is a separate step as well.
-/

namespace Supervisor

/-- A live OS process as seen through `subprocess.Popen`: its pid and
whether `poll()` would return `None` (still alive). -/
structure Proc where
  pid : Nat
  alive : Bool
deriving DecidableEq, Repr

/-- Observable side effects of the supervisor code. -/
inductive Event where
  | openFile (path : String)
  | closeFile (path : String)
  | spawn (pid : Nat) (argv : List String)
  | terminate (pid : Nat)
  | kill (pid : Nat)
  | sleep (seconds : Nat)
  | logError (msg : String)
deriving DecidableEq, Repr

/-- Static configuration of one program section, as handed to
`Program.__init__` (the config-file parsing itself is out of scope). -/
structure ProgramConfig where
  name : String
  command : String
  autostart : Bool
  autorestart : Bool
  stdout_logfile : Option String
  stderr_logfile : Option String
  redirect_stderr : Bool
deriving DecidableEq, Repr

/-- Runtime state of a `Program` object: the fields set in
`Program.__init__` and mutated by its methods.  `check_pending` is a model
field: it is true exactly while a `_check_start_success` daemon thread
started by the last successful spawn has not yet run. -/
structure Program where
  name : String
  command : String
  autostart : Bool
  autorestart : Bool
  stdout_logfile : Option String
  stderr_logfile : Option String
  redirect_stderr : Bool
  process : Option Proc
  start_time : Option Nat
  restart_count : Nat
  backoff_index : Nat
  stdout_file : Option String
  stderr_file : Option String
  is_starting : Bool
  check_pending : Bool
deriving DecidableEq, Repr

/-- Embeds `Program.__init__`: runtime fields start out empty/zero. -/
def initProgram (cfg : ProgramConfig) : Program :=
  { name := cfg.name
    command := cfg.command
    autostart := cfg.autostart
    autorestart := cfg.autorestart
    stdout_logfile := cfg.stdout_logfile
    stderr_logfile := cfg.stderr_logfile
    redirect_stderr := cfg.redirect_stderr
    process := none
    start_time := none
    restart_count := 0
    backoff_index := 0
    stdout_file := none
    stderr_file := none
    is_starting := false
    check_pending := false }

/-- Embeds `self.backoff_periods = [0, 1, 2, 5, 10, 15]`. -/
def backoff_periods : List Nat := [0, 1, 2, 5, 10, 15]

/-- Python truthiness of an optional string (`if self.stdout_logfile:`):
`None` and the empty string are falsy. -/
def truthy : Option String → Bool
  | none => false
  | some s => decide (s ≠ "")

/-- Embeds `self.process is not None and self.process.poll() is None`. -/
def procAlive : Option Proc → Bool
  | none => false
  | some pr => pr.alive

/-- Whitespace recognised by Python `str.split()` with no arguments. -/
def isPySpace (c : Char) : Bool :=
  c = ' ' || c = '\t' || c = '\n' || c = '\r' || c = '\x0b' || c = '\x0c'

/-- Helper for `pySplit`: walks the characters, accumulating the current
token in reverse. -/
def pySplitAux : List Char → List Char → List String
  | [], [] => []
  | [], a :: acc => [String.mk (a :: acc).reverse]
  | c :: cs, acc =>
    if isPySpace c then
      match acc with
      | [] => pySplitAux cs []
      | a :: acc2 => String.mk (a :: acc2).reverse :: pySplitAux cs []
    else pySplitAux cs (c :: acc)

/-- Python `str.split()` with no arguments: split on runs of whitespace,
discarding leading/trailing whitespace and empty tokens.  This is what
`cmd_args = self.command.split()` performs. -/
def pySplit (s : String) : List String := pySplitAux s.data []

/-- OS nondeterminism consumed by one start attempt: whether each `open`
and the `Popen` succeed, the pid of the spawned process, and the value
`time.time()` would return. -/
structure SpawnEnv where
  stdoutOk : Bool
  stderrOk : Bool
  spawnOk : Bool
  pid : Nat
  now : Nat

/-- The tail of `Program.start_program` after the log files have been
dealt with: `cmd_args = self.command.split()`, `self.process = Popen(...)`,
`self.start_time = time.time()`, and the `_check_start_success` thread is
started.  On `Popen` failure the except-clause logs and clears
`is_starting`; the fields assigned earlier keep their new values. -/
def spawnPhase (env : SpawnEnv) (p : Program) (evs : List Event) :
    Program × List Event :=
  if env.spawnOk then
    ({ p with
        process := some { pid := env.pid, alive := true }
        start_time := some env.now
        check_pending := true },
      evs ++ [Event.spawn env.pid (pySplit p.command)])
  else
    ({ p with is_starting := false },
      evs ++ [Event.logError ("Failed to start " ++ p.name)])

/-- Embeds `Program.start_program`.  Returns early if the current process is
alive; otherwise sets `is_starting`, opens the log files (an `open` that
raises leaves the field at its old value and jumps to the except clause,
which logs the error and clears `is_starting`), then spawns. -/
def start_program (env : SpawnEnv) (p0 : Program) : Program × List Event :=
  if procAlive p0.process then (p0, [])
  else
    let p1 : Program := { p0 with is_starting := true }
    if truthy p1.stdout_logfile && !env.stdoutOk then
      ({ p1 with is_starting := false },
        [Event.logError ("Failed to start " ++ p1.name)])
    else
      let outStep : Program × List Event :=
        if truthy p1.stdout_logfile then
          ({ p1 with stdout_file := p1.stdout_logfile },
            [Event.openFile (p1.stdout_logfile.getD "")])
        else ({ p1 with stdout_file := none }, [])
      let p2 := outStep.1
      let ev2 := outStep.2
      if p2.redirect_stderr then
        spawnPhase env { p2 with stderr_file := none } ev2
      else if truthy p2.stderr_logfile then
        if env.stderrOk then
          spawnPhase env { p2 with stderr_file := p2.stderr_logfile }
            (ev2 ++ [Event.openFile (p2.stderr_logfile.getD "")])
        else
          ({ p2 with is_starting := false },
            ev2 ++ [Event.logError ("Failed to start " ++ p2.name)])
      else
        spawnPhase env { p2 with stderr_file := none } ev2

/-- Embeds `Program._check_start_success`, run by the daemon thread one second
after a successful spawn: if the process is still alive, reset
`backoff_index`; always clear `is_starting` (and the pending-thread
marker). -/
def check_start_success (p : Program) : Program :=
  let p1 := if procAlive p.process then { p with backoff_index := 0 } else p
  { p1 with is_starting := false, check_pending := false }

/-- Embeds `Program.close_files`: close whichever log file handles are open. -/
def close_files (p : Program) : Program × List Event :=
  let outStep : Program × List Event :=
    match p.stdout_file with
    | some f => ({ p with stdout_file := none }, [Event.closeFile f])
    | none => (p, [])
  let p1 := outStep.1
  match p1.stderr_file with
  | some f => ({ p1 with stderr_file := none }, outStep.2 ++ [Event.closeFile f])
  | none => (p1, outStep.2)

/-- Embeds `Program.stop_program`.  Here `graceful` tells whether `wait(timeout=5)`
returns in time; if not, `kill()` is issued.  Either way the process ends
up dead, the files are closed, and `process` is cleared. -/
def stop_program (graceful : Bool) (p : Program) : Program × List Event :=
  let termStep : Program × List Event :=
    match p.process with
    | some pr =>
      if pr.alive then
        if graceful then
          ({ p with process := some { pr with alive := false } },
            [Event.terminate pr.pid])
        else
          ({ p with process := some { pr with alive := false } },
            [Event.terminate pr.pid, Event.kill pr.pid])
      else (p, [])
    | none => (p, [])
  let fileStep := close_files termStep.1
  ({ fileStep.1 with process := none, is_starting := false },
    termStep.2 ++ fileStep.2)

/-- The body of one iteration of `MyServiceFramework.monitor_programs`
for a single program: if its process has exited and it is not in its
start grace window, close its files; if `autorestart`, sleep the backoff,
bump `restart_count`, advance `backoff_index` (saturating), and start it
again. -/
def monitorTickOne (env : SpawnEnv) (p : Program) : Program × List Event :=
  if p.process.isSome && !procAlive p.process && !p.is_starting then
    let fileStep := close_files p
    let p1 := fileStep.1
    if p1.autorestart then
      let backoff :=
        backoff_periods.getD
          (min p1.backoff_index (backoff_periods.length - 1)) 0
      let p2 : Program :=
        { p1 with
            restart_count := p1.restart_count + 1
            backoff_index :=
              min (p1.backoff_index + 1) (backoff_periods.length - 1) }
      let startStep := start_program env p2
      (startStep.1, fileStep.2 ++ [Event.sleep backoff] ++ startStep.2)
    else (p1, fileStep.2)
  else (p, [])

/-! ### The service: status and the XML-RPC control methods -/

/-- The state a `status()` call reports for one program. -/
inductive PState where
  | STARTING
  | RUNNING
  | STOPPED
deriving DecidableEq, Repr

/-- The branch of `MyServiceFramework.status` that classifies one
program: `STARTING` if `is_starting`, else `RUNNING` if the process is
alive, else `STOPPED`. -/
def programState (p : Program) : PState :=
  if p.is_starting then .STARTING
  else if procAlive p.process then .RUNNING
  else .STOPPED

/-- One record of the list returned by `status()`. -/
structure StatusEntry where
  name : String
  state : PState
  uptime : Int
  restart_count : Nat
deriving DecidableEq, Repr

/-- One iteration of the loop in `MyServiceFramework.status`, at
wall-clock time `now`.  `uptime = time.time() - program.start_time` in the
`RUNNING` branch (in a reachable `RUNNING` state `start_time` is always
set; the `getD 0` default is never exercised there), else `0`. -/
def statusOne (now : Nat) (p : Program) : StatusEntry :=
  if p.is_starting then
    { name := p.name, state := .STARTING, uptime := 0
      restart_count := p.restart_count }
  else if procAlive p.process then
    { name := p.name, state := .RUNNING
      uptime := (now : Int) - ((p.start_time.getD 0 : Nat) : Int)
      restart_count := p.restart_count }
  else
    { name := p.name, state := .STOPPED, uptime := 0
      restart_count := p.restart_count }

/-- Embeds `MyServiceFramework.status`: one entry per tracked program. -/
def status (now : Nat) (ps : List Program) : List StatusEntry :=
  ps.map (statusOne now)

/-- Embeds `self.programs.get(program_name)` over the program list (the dict is
keyed by the unique program name). -/
def findProgram (name : String) (ps : List Program) : Option Program :=
  ps.find? (fun p => p.name = name)

/-- Apply an operation to the program stored under `name`, keeping every
other entry untouched. -/
def updateProgram (name : String) (f : Program → Program × List Event) :
    List Program → List Program × List Event
  | [] => ([], [])
  | p :: rest =>
    if p.name = name then
      let step := f p
      (step.1 :: rest, step.2)
    else
      let restStep := updateProgram name f rest
      (p :: restStep.1, restStep.2)

/-- Embeds `for program in self.programs.values(): <op>` — apply an operation to
every program in order, concatenating the event traces. -/
def forAllPrograms (f : Program → Program × List Event) :
    List Program → List Program × List Event
  | [] => ([], [])
  | p :: rest =>
    let step := f p
    let restStep := forAllPrograms f rest
    (step.1 :: restStep.1, step.2 ++ restStep.2)

/-- The not-found error payload, `f"Program '{program_name}' not found"`. -/
def notFoundMsg (name : String) : String :=
  "Program '" ++ name ++ "' not found"

/-- Embeds `MyServiceFramework.start` (XML-RPC).  `envs` supplies the spawn
nondeterminism per program name. -/
def rpcStart (envs : String → SpawnEnv) (name : String) (ps : List Program) :
    List Program × List Event × String :=
  if name = "all" then
    let step := forAllPrograms (fun p => start_program (envs p.name) p) ps
    (step.1, step.2, "OK")
  else
    match findProgram name ps with
    | some _ =>
      let step := updateProgram name (fun p => start_program (envs p.name) p) ps
      (step.1, step.2, "OK")
    | none => (ps, [], notFoundMsg name)

/-- Embeds `MyServiceFramework.stop` (XML-RPC).  `graceful` tells, per program
name, whether the 5-second `wait` succeeds. -/
def rpcStop (graceful : String → Bool) (name : String) (ps : List Program) :
    List Program × List Event × String :=
  if name = "all" then
    let step := forAllPrograms (fun p => stop_program (graceful p.name) p) ps
    (step.1, step.2, "OK")
  else
    match findProgram name ps with
    | some _ =>
      let step := updateProgram name (fun p => stop_program (graceful p.name) p) ps
      (step.1, step.2, "OK")
    | none => (ps, [], notFoundMsg name)

/-- Embeds `program.stop_program(); program.start_program()` as one operation. -/
def stopThenStart (graceful : Bool) (env : SpawnEnv) (p : Program) :
    Program × List Event :=
  let stopStep := stop_program graceful p
  let startStep := start_program env stopStep.1
  (startStep.1, stopStep.2 ++ startStep.2)

/-- Embeds `MyServiceFramework.restart` (XML-RPC): stop then start, per program. -/
def rpcRestart (graceful : String → Bool) (envs : String → SpawnEnv)
    (name : String) (ps : List Program) :
    List Program × List Event × String :=
  if name = "all" then
    let step :=
      forAllPrograms (fun p => stopThenStart (graceful p.name) (envs p.name) p) ps
    (step.1, step.2, "OK")
  else
    match findProgram name ps with
    | some _ =>
      let step :=
        updateProgram name
          (fun p => stopThenStart (graceful p.name) (envs p.name) p) ps
      (step.1, step.2, "OK")
    | none => (ps, [], notFoundMsg name)

/-! ### Reachable states of one program -/

/-- The underlying process exits on its own (crash or normal exit):
`poll()` stops returning `None`. -/
def setDead (p : Program) : Program :=
  { p with process := p.process.map (fun pr => { pr with alive := false }) }

/-- Atomic steps of one `Program` paired with a wall clock.  The clock
only moves forward; an operation that reads `time.time()` reads the clock
at the moment it runs. -/
inductive Step : Program × Nat → Program × Nat → Prop where
  | wait (p : Program) (c c' : Nat) : c ≤ c' → Step (p, c) (p, c')
  | start (p : Program) (c : Nat) (env : SpawnEnv) :
      env.now = c → Step (p, c) ((start_program env p).1, c)
  | procExit (p : Program) (c : Nat) : Step (p, c) (setDead p, c)
  | check (p : Program) (c : Nat) :
      p.check_pending = true → Step (p, c) (check_start_success p, c)
  | stop (p : Program) (c : Nat) (graceful : Bool) :
      Step (p, c) ((stop_program graceful p).1, c)
  | tick (p : Program) (c : Nat) (env : SpawnEnv) :
      env.now = c → Step (p, c) ((monitorTickOne env p).1, c)

/-- A program state is reachable when some sequence of steps produces it
from a freshly constructed `Program`. -/
def Reachable (p : Program) (c : Nat) : Prop :=
  ∃ cfg c0, Relation.ReflTransGen Step (initProgram cfg, c0) (p, c)

/-- State invariant tying the derived status to the raw fields: a program
inside its start grace window holds a process handle, a live process has a
recorded start time, and every recorded start time lies in the past. -/
def StateInv (p : Program) (c : Nat) : Prop :=
  (p.is_starting = true → p.process.isSome = true) ∧
  (procAlive p.process = true → p.start_time.isSome = true) ∧
  (∀ t, p.start_time = some t → t ≤ c)

/-! ### Concrete configurations and runs used as test vectors -/

/-- A program with both log files configured and `autorestart = true`. -/
def webCfg : ProgramConfig :=
  { name := "web"
    command := "web.exe --serve"
    autostart := true
    autorestart := true
    stdout_logfile := some "C:/logs/web.out"
    stderr_logfile := some "C:/logs/web.err"
    redirect_stderr := false }

/-- Like `webCfg` but `autorestart = false`. -/
def jobCfg : ProgramConfig :=
  { webCfg with name := "job", autorestart := false }

/-- A spawn environment in which every OS call succeeds. -/
def envOk (pid now : Nat) : SpawnEnv :=
  { stdoutOk := true, stderrOk := true, spawnOk := true, pid := pid, now := now }

/-- A spawn environment in which opening the stderr log file raises. -/
def envNoStderr : SpawnEnv :=
  { stdoutOk := true, stderrOk := false, spawnOk := true, pid := 9, now := 0 }

/-- The `jobCfg` program started successfully (pid 5). -/
def jobStarted : Program := (start_program (envOk 5 0) (initProgram jobCfg)).1

/-- State of `job` after the liveness check ran (process still alive). -/
def jobChecked : Program := check_start_success jobStarted

/-- State of `job` after its process exited on its own. -/
def jobExited : Program := setDead jobChecked

/-- State of `job` after the next monitor tick detected the exit
(`autorestart = false`, so no restart). -/
def jobTicked : Program := (monitorTickOne (envOk 6 0) jobExited).1

/-- The `webCfg` program started successfully (pid 7): still in its grace window. -/
def webStarting : Program := (start_program (envOk 7 0) (initProgram webCfg)).1

/-- State of `web` whose process crashed before the liveness check ran: `status()`
still reports `STARTING`, but `poll()` no longer returns `None`. -/
def webStartingDead : Program := setDead webStarting

/-- Crash-loop scenario: `web` is launched (pid 1) and dies at once. -/
def web0 : Program := (start_program (envOk 1 0) (initProgram webCfg)).1

/-- Here the liveness check has run on the dead process (no backoff reset). -/
def web1 : Program := check_start_success (setDead web0)

/-- First automatic restart (tick at time 1, pid 2). -/
def webTick1 : Program × List Event := monitorTickOne (envOk 2 1) web1

/-- Second crash, liveness check done. -/
def web2 : Program := check_start_success (setDead webTick1.1)

/-- Second automatic restart (tick at time 3, pid 3). -/
def webTick2 : Program × List Event := monitorTickOne (envOk 3 3) web2

/-- Third crash, liveness check done. -/
def web3 : Program := check_start_success (setDead webTick2.1)

/-- Third automatic restart (tick at time 6, pid 4). -/
def webTick3 : Program × List Event := monitorTickOne (envOk 4 6) web3

/-- The fourth launch stays alive past the grace period: the liveness
check runs on a live process. -/
def webStable : Program := check_start_success webTick3.1

/-- A command containing a double-quoted argument with a space. -/
def quoteCfg : ProgramConfig :=
  { name := "quoted"
    command := "run \"my file.txt\""
    autostart := false
    autorestart := false
    stdout_logfile := none
    stderr_logfile := none
    redirect_stderr := false }

/-- The quoted-command program started successfully (pid 3). -/
def quoteStart : Program × List Event :=
  start_program (envOk 3 0) (initProgram quoteCfg)

/-- A start attempt on `webCfg` in which opening the stderr log raises
after the stdout log was already opened. -/
def failedStart : Program × List Event :=
  start_program envNoStderr (initProgram webCfg)

/-- Iterated monitor ticks on one program, the tick at step `n` reading
its nondeterminism from `envs n`. -/
def iterTicks (envs : Nat → SpawnEnv) : Nat → Program → Program
  | 0, p => p
  | n + 1, p => iterTicks envs n (monitorTickOne (envs n) p).1

/-- Modelled from the spec: shell-style tokenization of the command
string, in which a double-quoted argument containing spaces becomes a
single element of the argument vector (the quotes being delimiters, not
part of the argument).  The source has no such tokenizer — it calls
`str.split()` — so this definition follows the wording of the spec and
exists only to be compared with `pySplit`. -/
def shellTokenizeAux : List Char → List Char → Bool → Bool → List String
  | [], acc, started, _ =>
    if started then [String.mk acc.reverse] else []
  | c :: cs, acc, started, inQuote =>
    if c = '"' then shellTokenizeAux cs acc true (!inQuote)
    else if isPySpace c && !inQuote then
      (if started then [String.mk acc.reverse] else []) ++
        shellTokenizeAux cs [] false false
    else shellTokenizeAux cs (c :: acc) true inQuote

/-- Shell-style tokenization of a whole string (spec model, see
`shellTokenizeAux`). -/
def shellTokenize (s : String) : List String :=
  shellTokenizeAux s.data [] false false

/-! ### Helper lemmas about the individual operations -/

/-- The method `close_files` only clears the two file handles. -/
theorem close_files_fst (p : Program) :
    (close_files p).1 = { p with stdout_file := none, stderr_file := none } := by
  obtain ⟨nm, cmd, au, ar, so, se, rd, pr, st, rc, bi, sf, ef, st2, cp⟩ := p
  rcases sf with _ | f <;> rcases ef with _ | f2 <;> simp [close_files]

/-- The method `close_files` emits only `closeFile` events. -/
theorem close_files_snd (p : Program) :
    ∀ e ∈ (close_files p).2, ∃ f, e = Event.closeFile f := by
  obtain ⟨nm, cmd, au, ar, so, se, rd, pr, st, rc, bi, sf, ef, st2, cp⟩ := p
  rcases sf with _ | f <;> rcases ef with _ | f2 <;> simp [close_files]

/-- Closed form of the program `stop_program` returns: whatever
termination path was taken, the handle is cleared, both files are closed
and the starting flag is dropped; everything else survives. -/
theorem stop_program_fst (graceful : Bool) (p : Program) :
    (stop_program graceful p).1 =
      { p with process := none, stdout_file := none, stderr_file := none,
               is_starting := false } := by
  obtain ⟨nm, cmd, au, ar, so, se, rd, pr, st, rc, bi, sf, ef, st2, cp⟩ := p
  rcases pr with _ | pr
  · rcases sf with _ | f <;> rcases ef with _ | f2 <;>
      simp [stop_program, close_files]
  · cases hA : pr.alive <;> cases graceful <;>
      rcases sf with _ | f <;> rcases ef with _ | f2 <;>
      simp [stop_program, close_files, hA]

/-- Stopping a program that holds no process handle and no open files
does nothing at all. -/
theorem stop_program_of_stopped (graceful : Bool) (p : Program)
    (h1 : p.process = none) (h2 : p.stdout_file = none)
    (h3 : p.stderr_file = none) (h4 : p.is_starting = false) :
    stop_program graceful p = (p, []) := by
  obtain ⟨nm, cmd, au, ar, so, se, rd, pr, st, rc, bi, sf, ef, st2, cp⟩ := p
  simp only at h1 h2 h3 h4
  subst h1 h2 h3 h4
  simp [stop_program, close_files]

/-- If the current process is alive, `start_program` returns at once. -/
theorem start_program_of_alive (env : SpawnEnv) (p : Program)
    (h : procAlive p.process = true) : start_program env p = (p, []) := by
  simp [start_program, h]

/-- Exhaustive description of a start attempt: either the process was
alive and nothing happened, or the attempt failed (an open or the spawn
raised: the flag is dropped, the handle and the start time are untouched,
the failure is logged and nothing is spawned), or it succeeded (a fresh
live process, the start time is recorded, the grace window opens).  In
every case `restart_count` and `backoff_index` are untouched. -/
theorem start_program_shape (env : SpawnEnv) (p : Program) :
    (start_program env p).1.restart_count = p.restart_count ∧
    (start_program env p).1.backoff_index = p.backoff_index ∧
    (start_program env p).1.name = p.name ∧
    (start_program env p).1.command = p.command ∧
    (start_program env p).1.autorestart = p.autorestart ∧
    (start_program env p = (p, []) ∨
      ((start_program env p).1.is_starting = false ∧
        (start_program env p).1.process = p.process ∧
        (start_program env p).1.start_time = p.start_time ∧
        Event.logError ("Failed to start " ++ p.name) ∈ (start_program env p).2 ∧
        (∀ pid argv, Event.spawn pid argv ∉ (start_program env p).2)) ∨
      ((start_program env p).1.process = some { pid := env.pid, alive := true } ∧
        (start_program env p).1.start_time = some env.now ∧
        (start_program env p).1.is_starting = true ∧
        (start_program env p).1.check_pending = true)) := by
  cases hA : procAlive p.process <;>
    cases hB : truthy p.stdout_logfile <;>
    cases hC : env.stdoutOk <;>
    cases hD : p.redirect_stderr <;>
    cases hE : truthy p.stderr_logfile <;>
    cases hF : env.stderrOk <;>
    cases hG : env.spawnOk <;>
    simp [start_program, spawnPhase, hA, hB, hC, hD, hE, hF, hG]

/-- Any `spawn` event a start attempt emits carries the pid handed out by
the OS and the whitespace-split command as its argument vector. -/
theorem start_program_spawn_argv (env : SpawnEnv) (p : Program) :
    ∀ pid argv, Event.spawn pid argv ∈ (start_program env p).2 →
      pid = env.pid ∧ argv = pySplit p.command := by
  cases hA : procAlive p.process <;>
    cases hB : truthy p.stdout_logfile <;>
    cases hC : env.stdoutOk <;>
    cases hD : p.redirect_stderr <;>
    cases hE : truthy p.stderr_logfile <;>
    cases hF : env.stderrOk <;>
    cases hG : env.spawnOk <;>
    simp [start_program, spawnPhase, hA, hB, hC, hD, hE, hF, hG]

/-- The check `_check_start_success` only touches `backoff_index`, `is_starting`
and the pending-thread marker. -/
theorem check_start_success_fields (p : Program) :
    (check_start_success p).process = p.process ∧
    (check_start_success p).start_time = p.start_time ∧
    (check_start_success p).restart_count = p.restart_count ∧
    (check_start_success p).is_starting = false ∧
    ((check_start_success p).backoff_index = p.backoff_index ∨
      (check_start_success p).backoff_index = 0) := by
  cases hA : procAlive p.process <;> simp [check_start_success, hA]

/-- The step `setDead` only flips the liveness bit of the held process. -/
theorem setDead_fields (p : Program) :
    (setDead p).process.isSome = p.process.isSome ∧
    (setDead p).start_time = p.start_time ∧
    (setDead p).restart_count = p.restart_count ∧
    (setDead p).backoff_index = p.backoff_index ∧
    (setDead p).is_starting = p.is_starting ∧
    procAlive (setDead p).process = false := by
  rcases hP : p.process with _ | pr <;> simp [setDead, hP, procAlive]

/-- A monitor tick skips a program whose process has not exited (or that
is inside its start grace window, or was never started). -/
theorem monitorTickOne_skip (env : SpawnEnv) (p : Program)
    (h : (p.process.isSome && !procAlive p.process && !p.is_starting) = false) :
    monitorTickOne env p = (p, []) := by
  simp [monitorTickOne, h]

/-- A monitor tick on an exited program with `autorestart = false` just
closes the log files. -/
theorem monitorTickOne_no_restart (env : SpawnEnv) (p : Program)
    (hg : (p.process.isSome && !procAlive p.process && !p.is_starting) = true)
    (ha : p.autorestart = false) :
    monitorTickOne env p =
      ({ p with stdout_file := none, stderr_file := none }, (close_files p).2) := by
  simp [monitorTickOne, hg, close_files_fst, ha]

/-- A monitor tick on an exited program with `autorestart = true`: close
the files, sleep the scheduled backoff, bump the counters, start again. -/
theorem monitorTickOne_restart (env : SpawnEnv) (p : Program)
    (hg : (p.process.isSome && !procAlive p.process && !p.is_starting) = true)
    (ha : p.autorestart = true) :
    monitorTickOne env p =
      ((start_program env
          { p with stdout_file := none, stderr_file := none,
                   restart_count := p.restart_count + 1,
                   backoff_index :=
                     min (p.backoff_index + 1) (backoff_periods.length - 1) }).1,
        (close_files p).2 ++
          [Event.sleep
            (backoff_periods.getD
              (min p.backoff_index (backoff_periods.length - 1)) 0)] ++
          (start_program env
            { p with stdout_file := none, stderr_file := none,
                     restart_count := p.restart_count + 1,
                     backoff_index :=
                       min (p.backoff_index + 1)
                         (backoff_periods.length - 1) }).2) := by
  simp [monitorTickOne, hg, close_files_fst, ha]

/-! ### The invariant holds in every reachable state -/

/-- A fresh program satisfies the invariant. -/
theorem stateInv_init (cfg : ProgramConfig) (c : Nat) : StateInv (initProgram cfg) c := by
  unfold StateInv
  refine ⟨?_, ?_, ?_⟩ <;> simp [initProgram, procAlive]

/-- The method `start_program` preserves the invariant when the clock it reads is
current. -/
theorem stateInv_start_program (env : SpawnEnv) (p : Program) (c : Nat)
    (h : StateInv p c) (hn : env.now ≤ c) : StateInv (start_program env p).1 c := by
  obtain ⟨h1, h2, h3⟩ := h
  obtain ⟨-, -, -, -, -, hsh⟩ := start_program_shape env p
  rcases hsh with heq | ⟨hi, hpr, hst, -, -⟩ | ⟨hpr, hst, hi, -⟩
  · rw [heq]
    exact ⟨h1, h2, h3⟩
  · refine ⟨?_, ?_, ?_⟩
    · intro hs
      rw [hi] at hs
      cases hs
    · rw [hpr, hst]
      exact h2
    · rw [hst]
      exact h3
  · refine ⟨?_, ?_, ?_⟩
    · intro _
      rw [hpr]
      rfl
    · intro _
      rw [hst]
      rfl
    · intro t ht
      rw [hst] at ht
      cases ht
      exact hn

/-- The method `stop_program` preserves the invariant. -/
theorem stateInv_stop_program (g : Bool) (p : Program) (c : Nat)
    (h : StateInv p c) : StateInv (stop_program g p).1 c := by
  obtain ⟨-, -, h3⟩ := h
  rw [stop_program_fst]
  unfold StateInv
  exact ⟨fun hs => Bool.noConfusion hs, fun hs => Bool.noConfusion hs, h3⟩

/-- The check `_check_start_success` preserves the invariant. -/
theorem stateInv_check (p : Program) (c : Nat) (h : StateInv p c) :
    StateInv (check_start_success p) c := by
  obtain ⟨-, h2, h3⟩ := h
  obtain ⟨hpr, hst, -, hi, -⟩ := check_start_success_fields p
  refine ⟨?_, ?_, ?_⟩
  · intro hs
    rw [hi] at hs
    cases hs
  · rw [hpr, hst]
    exact h2
  · rw [hst]
    exact h3

/-- A spontaneous process exit preserves the invariant. -/
theorem stateInv_setDead (p : Program) (c : Nat) (h : StateInv p c) :
    StateInv (setDead p) c := by
  obtain ⟨h1, h2, h3⟩ := h
  obtain ⟨hpr, hst, -, -, hi, hal⟩ := setDead_fields p
  refine ⟨?_, ?_, ?_⟩
  · intro hs
    rw [hpr]
    exact h1 (hi ▸ hs)
  · intro hs
    rw [hal] at hs
    cases hs
  · rw [hst]
    exact h3

/-- One monitor-loop tick preserves the invariant when the clock it reads
is current. -/
theorem stateInv_tick (env : SpawnEnv) (p : Program) (c : Nat)
    (h : StateInv p c) (hn : env.now ≤ c) : StateInv (monitorTickOne env p).1 c := by
  obtain ⟨h1, h2, h3⟩ := h
  cases hg : (p.process.isSome && !procAlive p.process && !p.is_starting)
  · rw [monitorTickOne_skip env p hg]
    exact ⟨h1, h2, h3⟩
  · have hdead : procAlive p.process = false := by
      rcases Bool.and_eq_true_iff.mp hg with ⟨hg1, -⟩
      rcases Bool.and_eq_true_iff.mp hg1 with ⟨-, hg2⟩
      simpa using hg2
    cases ha : p.autorestart
    · rw [monitorTickOne_no_restart env p hg ha]
      exact ⟨h1, h2, h3⟩
    · rw [monitorTickOne_restart env p hg ha]
      refine stateInv_start_program env _ c ⟨h1, ?_, h3⟩ hn
      exact fun hal => h2 hal

/-- Every step preserves the invariant. -/
theorem stateInv_step {s t : Program × Nat} (hst : Step s t) (h : StateInv s.1 s.2) :
    StateInv t.1 t.2 := by
  cases hst with
  | wait p c c' hle =>
    obtain ⟨h1, h2, h3⟩ := h
    exact ⟨h1, h2, fun t ht => le_trans (h3 t ht) hle⟩
  | start p c env hnow => exact stateInv_start_program env p c h (le_of_eq hnow)
  | procExit p c => exact stateInv_setDead p c h
  | check p c hcp => exact stateInv_check p c h
  | stop p c g => exact stateInv_stop_program g p c h
  | tick p c env hnow => exact stateInv_tick env p c h (le_of_eq hnow)

/-- The invariant holds in every reachable state. -/
theorem reachable_stateInv {p : Program} {c : Nat} (h : Reachable p c) :
    StateInv p c := by
  obtain ⟨cfg, c0, h⟩ := h
  suffices H : ∀ s : Program × Nat,
      Relation.ReflTransGen Step (initProgram cfg, c0) s → StateInv s.1 s.2 by
    exact H (p, c) h
  intro s hs
  induction hs with
  | refl => exact stateInv_init cfg c0
  | tail h1 h2 ih => exact stateInv_step h2 ih

/-! ### Helper lemmas about the control-server list operations -/

/-- Applying an operation to every program keeps the list length. -/
theorem forAllPrograms_length (f : Program → Program × List Event)
    (ps : List Program) : (forAllPrograms f ps).1.length = ps.length := by
  induction ps with
  | nil => rfl
  | cons p rest ih => simp [forAllPrograms, ih]

/-- Applying an operation to every program acts pointwise. -/
theorem forAllPrograms_get (f : Program → Program × List Event)
    (ps : List Program) (i : Nat) (h1 : i < ps.length)
    (h2 : i < (forAllPrograms f ps).1.length) :
    (forAllPrograms f ps).1.get ⟨i, h2⟩ = (f (ps.get ⟨i, h1⟩)).1 := by
  induction ps generalizing i with
  | nil => cases h1
  | cons p rest ih =>
    cases i with
    | zero => rfl
    | succ j =>
      exact ih j (Nat.lt_of_succ_lt_succ h1)
        (by simpa [forAllPrograms] using h2)

/-- A field that every single-program operation preserves is preserved
across the whole list. -/
theorem forAllPrograms_map_field {α : Type} (f : Program → Program × List Event)
    (g : Program → α) (hf : ∀ p, g (f p).1 = g p) (ps : List Program) :
    (forAllPrograms f ps).1.map g = ps.map g := by
  induction ps with
  | nil => rfl
  | cons p rest ih => simp [forAllPrograms, hf, ih]

/-- Updating one named entry keeps the list length. -/
theorem updateProgram_length (name : String)
    (f : Program → Program × List Event) (ps : List Program) :
    (updateProgram name f ps).1.length = ps.length := by
  induction ps with
  | nil => rfl
  | cons p rest ih =>
    by_cases h : p.name = name <;> simp [updateProgram, h, ih]

/-- Updating one named entry leaves every entry under another name
untouched. -/
theorem updateProgram_frame (name : String)
    (f : Program → Program × List Event) (ps : List Program) (i : Nat)
    (h1 : i < ps.length) (h2 : i < (updateProgram name f ps).1.length)
    (hn : (ps.get ⟨i, h1⟩).name ≠ name) :
    (updateProgram name f ps).1.get ⟨i, h2⟩ = ps.get ⟨i, h1⟩ := by
  induction ps generalizing i with
  | nil => cases h1
  | cons p rest ih =>
    by_cases h : p.name = name
    · cases i with
      | zero => exact absurd h hn
      | succ j => simp [updateProgram, h] at h2 ⊢
    · cases i with
      | zero => simp [updateProgram, h]
      | succ j =>
        have h2' : j < (updateProgram name f rest).1.length := by
          simpa [updateProgram, h] using h2
        have := ih j (Nat.lt_of_succ_lt_succ h1) h2' (by simpa using hn)
        simpa [updateProgram, h] using this

/-- A field that the single-program operation preserves is preserved by
the named update. -/
theorem updateProgram_map_field {α : Type} (name : String)
    (f : Program → Program × List Event) (g : Program → α)
    (hf : ∀ p, g (f p).1 = g p) (ps : List Program) :
    (updateProgram name f ps).1.map g = ps.map g := by
  induction ps with
  | nil => rfl
  | cons p rest ih =>
    by_cases h : p.name = name <;> simp [updateProgram, h, hf, ih]

/-- Both halves of the restart composition preserve `restart_count` and
`backoff_index`. -/
theorem stopThenStart_counters (g : Bool) (env : SpawnEnv) (p : Program) :
    (stopThenStart g env p).1.restart_count = p.restart_count ∧
    (stopThenStart g env p).1.backoff_index = p.backoff_index := by
  obtain ⟨hrc, hbi, -, -, -, -⟩ :=
    start_program_shape env (stop_program g p).1
  unfold stopThenStart
  rw [hrc, hbi, stop_program_fst]
  exact ⟨rfl, rfl⟩

/-! ### Reachability of the concrete test-vector states -/

/-- The freshly started `web` program is a reachable state. -/
theorem reach_webStarting : Reachable webStarting 0 :=
  ⟨webCfg, 0,
    Relation.ReflTransGen.single (Step.start (initProgram webCfg) 0 (envOk 7 0) rfl)⟩

/-- The `STARTING` program whose process already died is reachable. -/
theorem reach_webStartingDead : Reachable webStartingDead 0 :=
  ⟨webCfg, 0,
    Relation.ReflTransGen.tail
      (Relation.ReflTransGen.single (Step.start (initProgram webCfg) 0 (envOk 7 0) rfl))
      (Step.procExit webStarting 0)⟩

/-- The exited `job` program, as the monitor tick left it, is reachable. -/
theorem reach_jobTicked : Reachable jobTicked 0 :=
  ⟨jobCfg, 0,
    Relation.ReflTransGen.tail
      (Relation.ReflTransGen.tail
        (Relation.ReflTransGen.tail
          (Relation.ReflTransGen.single
            (Step.start (initProgram jobCfg) 0 (envOk 5 0) rfl))
          (Step.check jobStarted 0 (by decide)))
        (Step.procExit jobChecked 0))
      (Step.tick jobExited 0 (envOk 6 0) rfl)⟩

/-! ### Claim theorems -/

/-- C5: `stop_program` is idempotent: after one call the process handle
is null and all log file handles are closed regardless of which
termination path (graceful exit, timeout-escalated kill, or already
stopped) was taken, and a second consecutive call is a no-op that changes
no field and has no side effect (it returns the very same program and an
empty event trace). -/
theorem stop_program_idempotent (g g2 : Bool) (p : Program) :
    (stop_program g p).1.process = none ∧
    (stop_program g p).1.stdout_file = none ∧
    (stop_program g p).1.stderr_file = none ∧
    stop_program g2 (stop_program g p).1 = ((stop_program g p).1, []) := by
  refine ⟨?_, ?_, ?_, ?_⟩ <;> rw [stop_program_fst]
  exact stop_program_of_stopped g2 _ rfl rfl rfl rfl

/-- C10: the control-protocol operations `start`, `stop` and `restart`
(including with the name `all`) leave `restart_count` and `backoff_index`
of every tracked program unchanged; the single-program operations they
are built from never touch `restart_count`, which is incremented only by
the monitor-loop restart path. -/
theorem rpc_preserves_counters (envs : String → SpawnEnv)
    (graceful : String → Bool) (name : String) (ps : List Program) :
    ((rpcStart envs name ps).1.map Program.restart_count =
        ps.map Program.restart_count ∧
      (rpcStart envs name ps).1.map Program.backoff_index =
        ps.map Program.backoff_index) ∧
    ((rpcStop graceful name ps).1.map Program.restart_count =
        ps.map Program.restart_count ∧
      (rpcStop graceful name ps).1.map Program.backoff_index =
        ps.map Program.backoff_index) ∧
    ((rpcRestart graceful envs name ps).1.map Program.restart_count =
        ps.map Program.restart_count ∧
      (rpcRestart graceful envs name ps).1.map Program.backoff_index =
        ps.map Program.backoff_index) ∧
    (∀ env q, (start_program env q).1.restart_count = q.restart_count) ∧
    (∀ g q, (stop_program g q).1.restart_count = q.restart_count) ∧
    (∀ q, (check_start_success q).restart_count = q.restart_count) := by
  have hstart_rc : ∀ env (q : Program),
      (start_program env q).1.restart_count = q.restart_count :=
    fun env q => (start_program_shape env q).1
  have hstart_bi : ∀ env (q : Program),
      (start_program env q).1.backoff_index = q.backoff_index :=
    fun env q => (start_program_shape env q).2.1
  have hstop_rc : ∀ g (q : Program),
      (stop_program g q).1.restart_count = q.restart_count := by
    intro g q
    rw [stop_program_fst]
  have hstop_bi : ∀ g (q : Program),
      (stop_program g q).1.backoff_index = q.backoff_index := by
    intro g q
    rw [stop_program_fst]
  have hrs_rc : ∀ g env (q : Program),
      (stopThenStart g env q).1.restart_count = q.restart_count :=
    fun g env q => (stopThenStart_counters g env q).1
  have hrs_bi : ∀ g env (q : Program),
      (stopThenStart g env q).1.backoff_index = q.backoff_index :=
    fun g env q => (stopThenStart_counters g env q).2
  refine ⟨⟨?_, ?_⟩, ⟨?_, ?_⟩, ⟨?_, ?_⟩, hstart_rc, hstop_rc,
    fun q => (check_start_success_fields q).2.2.1⟩ <;>
    by_cases h : name = "all" <;>
    simp only [rpcStart, rpcStop, rpcRestart, h, if_true, if_false,
      reduceIte] <;>
    try cases hfind : findProgram name ps
  all_goals
    first
    | exact forAllPrograms_map_field _ _ (fun q => hstart_rc _ q) ps
    | exact forAllPrograms_map_field _ _ (fun q => hstart_bi _ q) ps
    | exact forAllPrograms_map_field _ _ (fun q => hstop_rc _ q) ps
    | exact forAllPrograms_map_field _ _ (fun q => hstop_bi _ q) ps
    | exact forAllPrograms_map_field _ _ (fun q => hrs_rc _ _ q) ps
    | exact forAllPrograms_map_field _ _ (fun q => hrs_bi _ _ q) ps
    | simp [hfind, updateProgram_map_field _ _ _ (fun q => hstart_rc _ q),
        updateProgram_map_field _ _ _ (fun q => hstart_bi _ q),
        updateProgram_map_field _ _ _ (fun q => hstop_rc _ q),
        updateProgram_map_field _ _ _ (fun q => hstop_bi _ q),
        updateProgram_map_field _ _ _ (fun q => hrs_rc _ _ q),
        updateProgram_map_field _ _ _ (fun q => hrs_bi _ _ q)]

/-- C8 (amended): `start_program` is a no-op — no spawn, no file opened,
no field changed — exactly when the currently held process is alive: this
covers every `RUNNING` program and every `STARTING` program whose process
is still alive.  (A `STARTING` program whose process has already exited is
spawned anew; see the counterexample.) -/
theorem start_noop_on_live_process :
    (∀ env p, programState p = PState.RUNNING → start_program env p = (p, [])) ∧
    (∀ env p, procAlive p.process = true → start_program env p = (p, [])) := by
  refine ⟨?_, fun env p h => start_program_of_alive env p h⟩
  intro env p h
  apply start_program_of_alive
  cases hpa : procAlive p.process
  · exfalso
    unfold programState at h
    cases hs : p.is_starting <;> simp [hs, hpa] at h
  · rfl

/-- C8 (counterexample): a reachable state whose `status()` is `STARTING`
(the liveness-check thread has not run yet) but whose process has already
exited; `start_program` on it is not a no-op: it spawns a new process
(pid 8) in place of the dead one (pid 7). -/
theorem starting_program_respawned :
    Reachable webStartingDead 0 ∧
    programState webStartingDead = PState.STARTING ∧
    webStartingDead.process = some { pid := 7, alive := false } ∧
    (start_program (envOk 8 0) webStartingDead).1.process =
      some { pid := 8, alive := true } ∧
    Event.spawn 8 ["web.exe", "--serve"] ∈
      (start_program (envOk 8 0) webStartingDead).2 :=
  ⟨reach_webStartingDead, by decide, by decide, by decide, by decide⟩

/-- C8 (witness for the amended theorem): the freshly started `web`
program holds a live process, and starting it again changes nothing. -/
theorem start_noop_on_live_process_witness :
    start_program (envOk 99 5) webStarting = (webStarting, []) :=
  start_noop_on_live_process.2 (envOk 99 5) webStarting (by decide)

/-- C6: each control-protocol call `start`, `stop`, `restart` applied to
the name `all` performs its operation on every tracked program (pointwise,
in order) and returns the string `OK`, even on an empty program set; a
name that is unknown and not `all` makes the call return exactly the
string built as `Program <name> not found` (single quotes around the
name), leaves the whole program list untouched, performs no side effect,
and does not raise. -/
theorem rpc_all_and_not_found (envs : String → SpawnEnv)
    (graceful : String → Bool) (name : String) (ps : List Program) :
    ((rpcStart envs "all" ps).2.2 = "OK" ∧
      (rpcStop graceful "all" ps).2.2 = "OK" ∧
      (rpcRestart graceful envs "all" ps).2.2 = "OK") ∧
    (∀ i (hi : i < ps.length) (h2 : i < (rpcStart envs "all" ps).1.length),
      (rpcStart envs "all" ps).1.get ⟨i, h2⟩ =
        (start_program (envs (ps.get ⟨i, hi⟩).name) (ps.get ⟨i, hi⟩)).1) ∧
    (∀ i (hi : i < ps.length) (h2 : i < (rpcStop graceful "all" ps).1.length),
      (rpcStop graceful "all" ps).1.get ⟨i, h2⟩ =
        (stop_program (graceful (ps.get ⟨i, hi⟩).name) (ps.get ⟨i, hi⟩)).1) ∧
    (∀ i (hi : i < ps.length)
        (h2 : i < (rpcRestart graceful envs "all" ps).1.length),
      (rpcRestart graceful envs "all" ps).1.get ⟨i, h2⟩ =
        (stopThenStart (graceful (ps.get ⟨i, hi⟩).name)
          (envs (ps.get ⟨i, hi⟩).name) (ps.get ⟨i, hi⟩)).1) ∧
    (name ≠ "all" → findProgram name ps = none →
      rpcStart envs name ps = (ps, [], notFoundMsg name) ∧
      rpcStop graceful name ps = (ps, [], notFoundMsg name) ∧
      rpcRestart graceful envs name ps = (ps, [], notFoundMsg name) ∧
      notFoundMsg name = "Program '" ++ name ++ "' not found") := by
  refine ⟨⟨rfl, rfl, rfl⟩, ?_, ?_, ?_, ?_⟩
  · intro i hi h2
    exact forAllPrograms_get _ ps i hi h2
  · intro i hi h2
    exact forAllPrograms_get _ ps i hi h2
  · intro i hi h2
    exact forAllPrograms_get _ ps i hi h2
  · intro hne hfind
    refine ⟨?_, ?_, ?_, rfl⟩ <;> simp [rpcStart, rpcStop, rpcRestart, hne, hfind]

/-- C6 (witness): a one-program set: `start` of an unknown name returns
the documented error and returns the list unchanged, and `start` of
`all` on the empty set returns `OK`. -/
theorem rpc_all_and_not_found_witness :
    rpcStart (fun _ => envOk 1 0) "ghost" [initProgram webCfg] =
      ([initProgram webCfg], [], notFoundMsg "ghost") ∧
    (rpcStart (fun _ => envOk 1 0) "all" ([] : List Program)).2.2 = "OK" :=
  ⟨((rpc_all_and_not_found (fun _ => envOk 1 0) (fun _ => true) "ghost"
      [initProgram webCfg]).2.2.2.2 (by decide) (by decide)).1,
    (rpc_all_and_not_found (fun _ => envOk 1 0) (fun _ => true) "all"
      ([] : List Program)).1.1⟩

/-- C1 (counterexample): the stated invariant — handle non-null iff state
is not `STOPPED` — fails in a reachable state: after the monitor tick
detects the exit of a program with `autorestart = false`, `status()`
reports `STOPPED` but `self.process` still holds the exited `Popen`
object (the tick closes the files and does not clear the handle). -/
theorem stopped_program_keeps_dead_handle :
    Reachable jobTicked 0 ∧
    programState jobTicked = PState.STOPPED ∧
    jobTicked.process = some { pid := 5, alive := false } ∧
    jobTicked.process.isSome = true :=
  ⟨reach_jobTicked, by decide, by decide, by decide⟩

/-- C1 (amended): one direction of the invariant holds in every reachable
state — if the state is not `STOPPED` the process handle is non-null —
and `stop_program` restores the full equivalence by clearing the handle
and leaving the program `STOPPED`; but the converse direction is false in
general, because a dead process handle is retained after exit detection
(see the counterexample). -/
theorem handle_nonnull_of_not_stopped :
    (∀ p c, Reachable p c → programState p ≠ PState.STOPPED →
      p.process.isSome = true) ∧
    (∀ g p, (stop_program g p).1.process = none ∧
      programState (stop_program g p).1 = PState.STOPPED) := by
  constructor
  · intro p c hr hne
    obtain ⟨h1, -, -⟩ := reachable_stateInv hr
    cases hs : p.is_starting
    · cases hpr : p.process with
      | none =>
        exfalso
        apply hne
        unfold programState
        simp [hs, hpr, procAlive]
      | some pr => simp [hpr]
    · exact h1 hs
  · intro g p
    rw [stop_program_fst]
    exact ⟨rfl, by unfold programState; simp [procAlive]⟩

/-- C1 (witness for the amended theorem): the freshly started `web`
program is reachable and not `STOPPED`, hence holds a handle; stopping it
clears the handle. -/
theorem handle_nonnull_of_not_stopped_witness :
    webStarting.process.isSome = true ∧
    (stop_program true webStarting).1.process = none :=
  ⟨handle_nonnull_of_not_stopped.1 webStarting 0 reach_webStarting (by decide),
    (handle_nonnull_of_not_stopped.2 true webStarting).1⟩

/-- C4: when a program with `autorestart = false` has exited (and is not
inside its start grace window), the monitor tick that detects the exit
closes its log files, leaves it reported `STOPPED`, and spawns nothing;
every subsequent monitor tick is a no-op, so the program stays `STOPPED`
for ever unless an explicit `start`/`restart` request arrives. -/
theorem no_autorestart_stays_stopped (env : SpawnEnv) (p : Program)
    (ha : p.autorestart = false)
    (hg : (p.process.isSome && !procAlive p.process && !p.is_starting) = true) :
    (monitorTickOne env p).1.stdout_file = none ∧
    (monitorTickOne env p).1.stderr_file = none ∧
    programState (monitorTickOne env p).1 = PState.STOPPED ∧
    (∀ pid argv, Event.spawn pid argv ∉ (monitorTickOne env p).2) ∧
    (∀ env2, monitorTickOne env2 (monitorTickOne env p).1 =
      ((monitorTickOne env p).1, [])) ∧
    (∀ (envs : Nat → SpawnEnv) (n : Nat),
      programState (iterTicks envs n (monitorTickOne env p).1) =
        PState.STOPPED) := by
  have hsome : p.process.isSome = true :=
    (Bool.and_eq_true_iff.mp (Bool.and_eq_true_iff.mp hg).1).1
  have hdead : procAlive p.process = false := by
    have := (Bool.and_eq_true_iff.mp (Bool.and_eq_true_iff.mp hg).1).2
    simpa using this
  have hns : p.is_starting = false := by
    have := (Bool.and_eq_true_iff.mp hg).2
    simpa using this
  rw [monitorTickOne_no_restart env p hg ha]
  have hstate : programState
      { p with stdout_file := none, stderr_file := none } = PState.STOPPED := by
    unfold programState
    simp [hns, hdead]
  have hstep : ∀ env2 : SpawnEnv,
      monitorTickOne env2 { p with stdout_file := none, stderr_file := none } =
        ({ p with stdout_file := none, stderr_file := none }, []) := by
    intro env2
    rw [monitorTickOne_no_restart env2
      { p with stdout_file := none, stderr_file := none }
      (by simp [hsome, hdead, hns]) ha]
    rfl
  refine ⟨rfl, rfl, hstate, ?_, hstep, ?_⟩
  · intro pid argv hmem
    obtain ⟨f, hf⟩ := close_files_snd p _ hmem
    cases hf
  · intro envs n
    have hfix : ∀ m, iterTicks envs m
        { p with stdout_file := none, stderr_file := none } =
        { p with stdout_file := none, stderr_file := none } := by
      intro m
      induction m with
      | zero => rfl
      | succ k ih =>
        show iterTicks envs k
          (monitorTickOne (envs k)
            { p with stdout_file := none, stderr_file := none }).1 = _
        rw [hstep (envs k)]
        exact ih
    rw [hfix n]
    exact hstate

/-- C4 (witness): the exited `job` program: one tick later it is reported
`STOPPED` with its log files closed. -/
theorem no_autorestart_stays_stopped_witness :
    programState jobTicked = PState.STOPPED ∧ jobTicked.stdout_file = none :=
  ⟨(no_autorestart_stays_stopped (envOk 6 0) jobExited (by decide)
      (by decide)).2.2.1,
    (no_autorestart_stays_stopped (envOk 6 0) jobExited (by decide)
      (by decide)).1⟩

/-- C3: on a monitor tick that restarts an exited `autorestart` program,
`restart_count` goes up by exactly one, `backoff_index` advances
saturating at the last schedule slot, and before respawning the loop
sleeps `backoff_periods[min(backoff_index, len-1)]` seconds (only the
file-closing precedes that sleep in the trace).  In the concrete
crash-loop scenario: restart 1 sleeps 0 s (`restart_count = 1`), restart
2 sleeps 1 s (`restart_count = 2`), restart 3 sleeps 2 s
(`restart_count = 3`), and after the fourth launch survives the grace
period `backoff_index` is reset to 0. -/
theorem autorestart_backoff_schedule :
    (∀ env p, p.autorestart = true →
      (p.process.isSome && !procAlive p.process && !p.is_starting) = true →
      (monitorTickOne env p).1.restart_count = p.restart_count + 1 ∧
      (monitorTickOne env p).1.backoff_index =
        min (p.backoff_index + 1) (backoff_periods.length - 1) ∧
      ∃ pre post,
        (monitorTickOne env p).2 =
          pre ++ Event.sleep (backoff_periods.getD
            (min p.backoff_index (backoff_periods.length - 1)) 0) :: post ∧
        ∀ e ∈ pre, ∃ f, e = Event.closeFile f) ∧
    (webTick1.1.restart_count = 1 ∧ webTick1.1.backoff_index = 1 ∧
      Event.sleep 0 ∈ webTick1.2 ∧
      webTick2.1.restart_count = 2 ∧ webTick2.1.backoff_index = 2 ∧
      Event.sleep 1 ∈ webTick2.2 ∧
      webTick3.1.restart_count = 3 ∧ webTick3.1.backoff_index = 3 ∧
      Event.sleep 2 ∈ webTick3.2 ∧
      webStable.backoff_index = 0 ∧
      programState webStable = PState.RUNNING) := by
  constructor
  · intro env p ha hg
    rw [monitorTickOne_restart env p hg ha]
    refine ⟨?_, ?_, (close_files p).2,
      (start_program env
        { p with stdout_file := none, stderr_file := none,
                 restart_count := p.restart_count + 1,
                 backoff_index :=
                   min (p.backoff_index + 1) (backoff_periods.length - 1) }).2,
      by simp, close_files_snd p⟩
    · rw [(start_program_shape env _).1]
    · rw [(start_program_shape env _).2.1]
  · exact ⟨by decide, by decide, by decide, by decide, by decide, by decide,
      by decide, by decide, by decide, by decide, by decide⟩

/-- C3 (witness for the universally quantified part): the first crash-loop
restart increments `restart_count` from 0 to 1. -/
theorem autorestart_backoff_schedule_witness :
    webTick1.1.restart_count = web1.restart_count + 1 :=
  (autorestart_backoff_schedule.1 (envOk 2 1) web1 (by decide) (by decide)).1

/-- C7: `status()` returns one record per tracked program, carrying its
name, its `restart_count`, and a state that is exactly the
STARTING/RUNNING/STOPPED classification; for reachable states queried at
a current time, the reported uptime is `now - start_time` when `RUNNING`,
`0` otherwise, and is never negative. -/
theorem status_report_correct :
    (∀ (now : Nat) (ps : List Program), (status now ps).length = ps.length ∧
      ∀ i (h1 : i < ps.length) (h2 : i < (status now ps).length),
        (status now ps).get ⟨i, h2⟩ = statusOne now (ps.get ⟨i, h1⟩)) ∧
    (∀ (now : Nat) (p : Program), (statusOne now p).name = p.name ∧
      (statusOne now p).restart_count = p.restart_count ∧
      (statusOne now p).state = programState p) ∧
    (∀ (p : Program) (c now : Nat), Reachable p c → c ≤ now →
      0 ≤ (statusOne now p).uptime ∧
      (programState p ≠ PState.RUNNING → (statusOne now p).uptime = 0) ∧
      (programState p = PState.RUNNING →
        ∃ t, p.start_time = some t ∧
          (statusOne now p).uptime = (now : Int) - (t : Int))) := by
  refine ⟨?_, ?_, ?_⟩
  · intro now ps
    refine ⟨by simp [status], ?_⟩
    intro i h1 h2
    simp [status]
  · intro now p
    cases hs : p.is_starting <;> cases ha : procAlive p.process <;>
      simp [statusOne, programState, hs, ha]
  · intro p c now hr hle
    obtain ⟨-, h2, h3⟩ := reachable_stateInv hr
    cases hs : p.is_starting
    · cases ha : procAlive p.process
      · refine ⟨?_, ?_, ?_⟩ <;> simp [statusOne, programState, hs, ha]
      · obtain ⟨t, ht⟩ := Option.isSome_iff_exists.mp (h2 ha)
        have htn : t ≤ now := le_trans (h3 t ht) hle
        refine ⟨?_, ?_, ?_⟩
        · simp only [statusOne, hs, ha, ht]
          simp
          omega
        · intro hne
          exfalso
          apply hne
          unfold programState
          simp [hs, ha]
        · intro _
          refine ⟨t, ht, ?_⟩
          simp [statusOne, hs, ha, ht]
    · refine ⟨?_, ?_, ?_⟩ <;> simp [statusOne, programState, hs]

/-- C7 (witness): a fresh (reachable) program queried at time 5 reports a
non-negative uptime. -/
theorem status_report_correct_witness :
    0 ≤ (statusOne 5 (initProgram webCfg)).uptime :=
  (status_report_correct.2.2 (initProgram webCfg) 0 5
    ⟨webCfg, 0, Relation.ReflTransGen.refl⟩ (by decide)).1

/-- C2 (amended): when a start attempt fails — a log file cannot be
opened or the spawn raises — the failure is written to the operator log,
the program ends the attempt reported `STOPPED` with its process handle,
start time and counters exactly as before, no process is spawned, and no
other entry of the program set is touched by a named `start` request.  A
log file handle that was already opened during the failed attempt is NOT
closed by the failure path: it stays referenced by the program (it is
closed only by the next `close_files`/`stop_program`); see the
counterexample. -/
theorem failed_start_reported_and_stopped (env : SpawnEnv) (p : Program)
    (halive : procAlive p.process = false)
    (hfail : (((truthy p.stdout_logfile && !env.stdoutOk) ||
        ((!p.redirect_stderr && truthy p.stderr_logfile) && !env.stderrOk)) ||
        !env.spawnOk) = true) :
    (start_program env p).1.is_starting = false ∧
    (start_program env p).1.process = p.process ∧
    (start_program env p).1.start_time = p.start_time ∧
    (start_program env p).1.restart_count = p.restart_count ∧
    (start_program env p).1.backoff_index = p.backoff_index ∧
    programState (start_program env p).1 = PState.STOPPED ∧
    Event.logError ("Failed to start " ++ p.name) ∈ (start_program env p).2 ∧
    (∀ pid argv, Event.spawn pid argv ∉ (start_program env p).2) ∧
    (∀ (envs : String → SpawnEnv) (name : String) (ps : List Program) i
      (h1 : i < ps.length) (h2 : i < (rpcStart envs name ps).1.length),
      name ≠ "all" → (ps.get ⟨i, h1⟩).name ≠ name →
      (rpcStart envs name ps).1.get ⟨i, h2⟩ = ps.get ⟨i, h1⟩) := by
  have hframe : ∀ (envs : String → SpawnEnv) (name : String) (ps : List Program) i
      (h1 : i < ps.length) (h2 : i < (rpcStart envs name ps).1.length),
      name ≠ "all" → (ps.get ⟨i, h1⟩).name ≠ name →
      (rpcStart envs name ps).1.get ⟨i, h2⟩ = ps.get ⟨i, h1⟩ := by
    intro envs name ps i h1 h2 hna hn
    cases hfind : findProgram name ps with
    | none =>
      have hid : (rpcStart envs name ps).1 = ps := by
        simp [rpcStart, hna, hfind]
      exact List.get_of_eq hid ⟨i, h2⟩
    | some q =>
      have hup : (rpcStart envs name ps).1 =
          (updateProgram name (fun r => start_program (envs r.name) r) ps).1 := by
        simp [rpcStart, hna, hfind]
      have h2u : i <
          (updateProgram name (fun r => start_program (envs r.name) r) ps).1.length := by
        rw [updateProgram_length]
        exact h1
      exact (List.get_of_eq hup ⟨i, h2⟩).trans
        (updateProgram_frame name _ ps i h1 h2u hn)
  refine ⟨?_, ?_, ?_, ?_, ?_, ?_, ?_, ?_, hframe⟩ <;>
    clear hframe <;>
    cases hB : truthy p.stdout_logfile <;>
    cases hC : env.stdoutOk <;>
    cases hD : p.redirect_stderr <;>
    cases hE : truthy p.stderr_logfile <;>
    cases hF : env.stderrOk <;>
    cases hG : env.spawnOk <;>
    simp_all [start_program, spawnPhase, programState]

/-- C2 (counterexample): a reachable failed start (stderr log open
raises after the stdout log was opened): the attempt is logged and the
program stays `STOPPED` with no process, but the stdout log handle opened
during the failed attempt is not closed — it remains referenced by the
program and no `closeFile` event is emitted. -/
theorem failed_start_leaves_stdout_open :
    Reachable failedStart.1 0 ∧
    Event.openFile "C:/logs/web.out" ∈ failedStart.2 ∧
    Event.closeFile "C:/logs/web.out" ∉ failedStart.2 ∧
    failedStart.1.stdout_file = some "C:/logs/web.out" ∧
    Event.logError "Failed to start web" ∈ failedStart.2 ∧
    programState failedStart.1 = PState.STOPPED ∧
    failedStart.1.process = none :=
  ⟨⟨webCfg, 0,
      Relation.ReflTransGen.single
        (Step.start (initProgram webCfg) 0 envNoStderr rfl)⟩,
    by decide, by decide, by decide, by decide, by decide, by decide⟩

/-- C2 (witness for the amended theorem): the concrete failed start of
`web` keeps the program formerly stopped and logs the failure. -/
theorem failed_start_reported_and_stopped_witness :
    programState failedStart.1 = PState.STOPPED ∧
    Event.logError ("Failed to start " ++ (initProgram webCfg).name) ∈
      failedStart.2 :=
  ⟨(failed_start_reported_and_stopped envNoStderr (initProgram webCfg)
      (by decide) (by decide)).2.2.2.2.2.1,
    (failed_start_reported_and_stopped envNoStderr (initProgram webCfg)
      (by decide) (by decide)).2.2.2.2.2.2.1⟩

/-- Tokens flushed from a whitespace-free accumulator are nonempty and
contain no whitespace. -/
theorem mk_reverse_token (a : Char) (acc : List Char)
    (hacc : ∀ ch ∈ a :: acc, isPySpace ch = false) :
    String.mk (a :: acc).reverse ≠ "" ∧
    ∀ ch ∈ (String.mk (a :: acc).reverse).data, isPySpace ch = false := by
  constructor
  · intro h
    have h2 : (a :: acc).reverse = ([] : List Char) :=
      congrArg String.data h
    simp at h2
  · intro ch hch
    have hm : ch ∈ (a :: acc).reverse := by simpa using hch
    exact hacc ch (List.mem_reverse.mp hm)

/-- Every token `pySplitAux` produces (from a whitespace-free
accumulator) is nonempty and whitespace-free. -/
theorem pySplitAux_tokens (cs : List Char) : ∀ acc : List Char,
    (∀ ch ∈ acc, isPySpace ch = false) →
    ∀ t ∈ pySplitAux cs acc,
      t ≠ "" ∧ ∀ ch ∈ t.data, isPySpace ch = false := by
  induction cs with
  | nil =>
    intro acc hacc t ht
    cases acc with
    | nil => simp [pySplitAux] at ht
    | cons a acc2 =>
      simp only [pySplitAux, List.mem_singleton] at ht
      subst ht
      exact mk_reverse_token a acc2 hacc
  | cons c cs2 ih =>
    intro acc hacc t ht
    by_cases hsp : isPySpace c = true
    · cases acc with
      | nil =>
        rw [show pySplitAux (c :: cs2) [] = pySplitAux cs2 [] by
          simp [pySplitAux, hsp]] at ht
        exact ih [] (by simp) t ht
      | cons a acc2 =>
        rw [show pySplitAux (c :: cs2) (a :: acc2) =
            String.mk ((a :: acc2).reverse) :: pySplitAux cs2 [] by
          simp [pySplitAux, hsp]] at ht
        rcases List.mem_cons.mp ht with rfl | ht2
        · exact mk_reverse_token a acc2 hacc
        · exact ih [] (by simp) t ht2
    · rw [show pySplitAux (c :: cs2) acc = pySplitAux cs2 (c :: acc) by
        simp [pySplitAux, hsp]] at ht
      refine ih (c :: acc) ?_ t ht
      intro ch hch
      rcases List.mem_cons.mp hch with rfl | hm
      · exact Bool.eq_false_iff.mpr hsp
      · exact hacc ch hm

/-- C9 (amended): the configured command string is tokenized with Python
`str.split()`: the argument vector handed to the spawned process is the
command split at maximal whitespace runs, with no quote handling — every
element is a nonempty, whitespace-free substring, and quote characters
are carried through verbatim (a double-quoted argument with a space is
split into two elements that keep their quote characters). -/
theorem command_tokenized_by_whitespace :
    (∀ (env : SpawnEnv) (p : Program) pid argv,
      Event.spawn pid argv ∈ (start_program env p).2 →
        argv = pySplit p.command) ∧
    (∀ s t, t ∈ pySplit s →
      t ≠ "" ∧ ∀ ch ∈ t.data, isPySpace ch = false) ∧
    pySplit "run \"my file.txt\"" = ["run", "\"my", "file.txt\""] := by
  refine ⟨?_, ?_, by decide⟩
  · intro env p pid argv hmem
    exact (start_program_spawn_argv env p pid argv hmem).2
  · intro s t ht
    exact pySplitAux_tokens s.data [] (by simp) t ht

/-- C9 (counterexample): the command `run "my file.txt"` is spawned with
argument vector `[run, "my, file.txt"]` — the quoted argument containing
a space does not become a single element, unlike what the spec-modelled
shell tokenizer produces. -/
theorem quoted_argument_not_single_element :
    quoteStart.2 = [Event.spawn 3 ["run", "\"my", "file.txt\""]] ∧
    shellTokenize "run \"my file.txt\"" = ["run", "my file.txt"] ∧
    pySplit "run \"my file.txt\"" ≠ shellTokenize "run \"my file.txt\"" ∧
    "my file.txt" ∉ ["run", "\"my", "file.txt\""] :=
  ⟨by decide, by decide, by decide, by decide⟩

/-- C9 (witness for the amended theorem): the concrete spawn of the
quoted command uses the whitespace-split vector. -/
theorem command_tokenized_by_whitespace_witness :
    ["run", "\"my", "file.txt\""] = pySplit (initProgram quoteCfg).command :=
  command_tokenized_by_whitespace.1 (envOk 3 0) (initProgram quoteCfg) 3
    ["run", "\"my", "file.txt\""] (by decide)

end Supervisor
